import Mathlib

/-!
# OTEL weather service: validation, two-hop lookup and error mapping

A shallow embedding of the two Go services of the repository

* `service-a` (front): `isValidCEP`, `CEPService.ValidateAndGetWeather`,
  `CEPHandler.GetWeatherByCEP`;
* `service-b` (back): `isValidZipcode`, `WeatherService.getLocationByZipcode`,
  `WeatherService.getTemperatureByLocation`, `WeatherService.GetWeatherByZipcode`,
  `WeatherHandler.GetWeather`.

Conventions of the embedding.

* A Go `string` is a Lean `String` (a sequence of Unicode scalar values).
* A Go `error` is observed by the code only through `err.Error()`, so an error is
  its message, a `String`; a fallible function returns `Except String α`.
* Everything outside the repository that the services call (the HTTP client, the
  JSON decoder, `url.QueryEscape`) is a field of `World`; the functions of the
  services are ordinary functions of the `World`.
* A function that may issue outbound HTTP requests returns, next to its result,
  the list of URL strings, as the code built them and gave them to
  `http.NewRequestWithContext`, for which `client.Do` was invoked, in order. The
  escaping that the HTTP library applies on the wire is not part of the embedding.
* Tracing spans and log lines carry no control flow and are left out.
-/

namespace OtelWeather

/-! ## Library functions used by the validators -/

/-- Go `strings.ReplaceAll(s, old, new)` for a non-empty `old`, on the characters of
the strings: the text is scanned from the left, every non-overlapping occurrence of
`old` is replaced by `new`. The first argument counts the characters of a matched
occurrence that remain to be skipped. -/
def replaceAllAux (old new : List Char) : Nat → List Char → List Char
  | _, [] => []
  | skip + 1, _ :: cs => replaceAllAux old new skip cs
  | 0, c :: cs =>
    if old.isPrefixOf (c :: cs) then new ++ replaceAllAux old new (old.length - 1) cs
    else c :: replaceAllAux old new 0 cs

/-- Go `strings.ReplaceAll` (for a non-empty `old`). -/
def ReplaceAll (s old new : String) : String :=
  ⟨replaceAllAux old.data new.data 0 s.data⟩

/-- The character class `\d` of Go regular expressions: the ASCII digits `0`..`9`. -/
def isDigitClass (c : Char) : Bool :=
  decide ('0' ≤ c) && decide (c ≤ '9')

/-- Matches `\d{n}` at the head of the text: consumes exactly `n` digits and returns the
remaining text, or fails. -/
def matchDigits : Nat → List Char → Option (List Char)
  | 0, cs => some cs
  | _ + 1, [] => none
  | n + 1, c :: cs => if isDigitClass c then matchDigits n cs else none

/-- The call `regexp.MatchString("^\\d{8}$", s)`: `^` pins the match to the beginning of
the text, `\d{8}` consumes eight digits, `$` (no multi-line flag) requires the end of
the text. -/
def matchEightDigits (s : String) : Bool :=
  match matchDigits 8 s.data with
  | some [] => true
  | _ => false

/-! ## Validators -/

/-- The local `cleanZipcode` of `isValidZipcode` (service-b):
`strings.ReplaceAll(strings.ReplaceAll(zipcode, "-", ""), " ", "")`. -/
def cleanZipcode (zipcode : String) : String :=
  ReplaceAll (ReplaceAll zipcode "-" "") " " ""

/-- The function `isValidZipcode` of service-b. -/
def isValidZipcode (zipcode : String) : Bool :=
  matchEightDigits (cleanZipcode zipcode)

/-- The local `cleanCEP` of `isValidCEP` (service-a). -/
def cleanCEP (cep : String) : String :=
  ReplaceAll (ReplaceAll cep "-" "") " " ""

/-- The function `isValidCEP` of service-a. -/
def isValidCEP (cep : String) : Bool :=
  matchEightDigits (cleanCEP cep)

/-- The normalisation of the specification: every `-` and every space is removed. -/
def specStrip (s : String) : List Char :=
  s.data.filter (fun c => c != '-' && c != ' ')

/-- The validity predicate of the specification: after removing `-` and spaces the text
is exactly eight ASCII decimal digits. -/
def SpecValidPostalCode (s : String) : Prop :=
  (specStrip s).length = 8 ∧ ∀ c ∈ specStrip s, '0' ≤ c ∧ c ≤ '9'

/-! ## IEEE 754 binary64 arithmetic (Go `float64`) -/

/-- A Go `float64`. A finite value is `(-1)^neg * mant * 2^exp`, kept in the canonical
form of binary64: `mant < 2^53`, `-1074 ≤ exp ≤ 971`, and `2^52 ≤ mant` unless
`exp = -1074` (subnormal numbers and the two zeros). -/
inductive Float64 where
  | finite (neg : Bool) (mant : Nat) (exp : Int)
  | inf (neg : Bool)
  | nan
  deriving DecidableEq, Repr

/-- Number of binary digits of `n`, by repeated halving (`fuel` bounds the number of
halvings; `n` itself is always enough). -/
def bitLengthAux : Nat → Nat → Nat
  | 0, _ => 0
  | fuel + 1, n => if n = 0 then 0 else bitLengthAux fuel (n / 2) + 1

/-- Number of binary digits of `n` (`0` for `0`). -/
def bitLength (n : Nat) : Nat := bitLengthAux n n

/-- Round-to-nearest, ties-to-even, of the exact positive rational `p / q` (`q > 0`) with
sign `neg` to binary64; `p = 0` gives the zero of that sign, a magnitude of `2^1024` or
more after rounding gives the infinity of that sign. -/
def Float64.round (neg : Bool) (p q : Nat) : Float64 :=
  if p = 0 then .finite neg 0 (-1074)
  else
    let k : Int := (bitLength p : Int) - (bitLength q : Int)
    let lg : Int := if q * 2 ^ k.toNat ≤ p * 2 ^ (-k).toNat then k else k - 1
    let e : Int := max (lg - 52) (-1074)
    let num : Nat := p * 2 ^ (-e).toNat
    let den : Nat := q * 2 ^ e.toNat
    let m : Nat := num / den
    let r : Nat := num % den
    let m1 : Nat := if den < 2 * r ∨ (2 * r = den ∧ m % 2 = 1) then m + 1 else m
    let m2 : Nat := if m1 = 2 ^ 53 then 2 ^ 52 else m1
    let e2 : Int := if m1 = 2 ^ 53 then e + 1 else e
    if 971 < e2 then .inf neg else .finite neg m2 e2

/-- Rounding of the exact value `(-1)^neg * m * 2^e`. -/
def Float64.roundScaled (neg : Bool) (m : Nat) (e : Int) : Float64 :=
  Float64.round neg (m * 2 ^ e.toNat) (2 ^ (-e).toNat)

/-- The exact sum `(-1)^s * m * 2^e + (-1)^t * n * 2^f`, rounded once. An exact zero sum
is `-0` only when both terms are negative, as in round-to-nearest mode. -/
def Float64.addExact (s : Bool) (m : Nat) (e : Int) (t : Bool) (n : Nat) (f : Int) : Float64 :=
  let g : Int := min e f
  let a : Int := if s then -((m * 2 ^ (e - g).toNat : Nat) : Int) else ((m * 2 ^ (e - g).toNat : Nat) : Int)
  let b : Int := if t then -((n * 2 ^ (f - g).toNat : Nat) : Int) else ((n * 2 ^ (f - g).toNat : Nat) : Int)
  let c : Int := a + b
  if c = 0 then .finite (s && t) 0 (-1074)
  else Float64.roundScaled (decide (c < 0)) c.natAbs g

/-- Go `x + y` on `float64`. -/
def Float64.add : Float64 → Float64 → Float64
  | .nan, _ => .nan
  | _, .nan => .nan
  | .inf s, .inf t => if s = t then .inf s else .nan
  | .inf s, .finite _ _ _ => .inf s
  | .finite _ _ _, .inf t => .inf t
  | .finite s m e, .finite t n f => Float64.addExact s m e t n f

/-- Go `x * y` on `float64`. -/
def Float64.mul : Float64 → Float64 → Float64
  | .nan, _ => .nan
  | _, .nan => .nan
  | .inf s, .inf t => .inf (xor s t)
  | .inf s, .finite t n _ => if n = 0 then .nan else .inf (xor s t)
  | .finite s m _, .inf t => if m = 0 then .nan else .inf (xor s t)
  | .finite s m e, .finite t n f => Float64.roundScaled (xor s t) (m * n) (e + f)

/-- The fused operation `x * y + z` with a single rounding, which a Go compiler may emit
for the expression `x*y + z` on targets with a fused multiply-add instruction. -/
def Float64.fma : Float64 → Float64 → Float64 → Float64
  | .finite s m e, .finite t n f, .finite u k g => Float64.addExact (xor s t) (m * n) (e + f) u k g
  | x, y, z => Float64.add (Float64.mul x y) z

/-- Conversion of a Go untyped numeric constant `p / q` (non-negative) to `float64`. -/
def Float64.ofConst (p q : Nat) : Float64 := Float64.round false p q


/-! ## Formatting with a caller-supplied format string -/

/-- Go `fmt`'s `parsenum` on the text between `start` and `end`: reads a decimal number,
returns its value, whether a digit was read, and the unread text. A number that grows
beyond `1e6` is given up and the whole text counts as read. -/
def parsenumAux : Nat → Bool → List Char → Nat × Bool × List Char
  | num, isnum, [] => (num, isnum, [])
  | num, isnum, c :: cs =>
    if '0' ≤ c ∧ c ≤ '9' then
      if 1000000 < num then (0, false, [])
      else parsenumAux (num * 10 + (c.toNat - 48)) true cs
    else (num, isnum, c :: cs)

/-- Go `fmt`'s `parsenum` from the head of the text. -/
def parsenum (cs : List Char) : Nat × Bool × List Char :=
  parsenumAux 0 false cs

/-- Splits the text at its first `]`: the text before it and the text after it. -/
def splitAtBracket : List Char → Option (List Char × List Char)
  | [] => none
  | c :: cs =>
    if c = ']' then some ([], cs)
    else match splitAtBracket cs with
      | none => none
      | some (inner, after) => some (c :: inner, after)

/-- Go `fmt`'s `argNumber` (with `parseArgNumber`) when the call has no operands: at a
`[` it skips an argument index `[n]`; the result is the unread text, whether a
well-formed index was found, and whether a `[` was met (every index is out of range
when there are no operands, so `goodArgNum` becomes false). -/
def argNumber : List Char → List Char × Bool × Bool
  | [] => ([], false, false)
  | c :: tail =>
    if c = '[' then
      if tail.length < 2 then (tail, false, true)
      else match splitAtBracket tail with
        | none => (tail, false, true)
        | some (inner, after) =>
          let r := parsenum inner
          (after, r.2.1 && r.2.2.isEmpty, true)
    else (c :: tail, false, false)

/-- The flag characters `#0+- ` after a `%` are skipped. -/
def skipFlags : List Char → List Char
  | [] => []
  | c :: cs =>
    if c = '#' ∨ c = '0' ∨ c = '+' ∨ c = '-' ∨ c = ' ' then skipFlags cs else c :: cs

/-- The state of Go `fmt`'s `doPrintf` while it reads one directive: the text written
for the directive so far, the unread text of the format, and the variables `afterIndex`
and `p.goodArgNum`. -/
structure VerbState where
  out : List Char
  rest : List Char
  afterIndex : Bool
  goodArgNum : Bool

/-- The statement `argNum, i, afterIndex = p.argNumber(argNum, format, i, len(a))`. -/
def indexStep (st : VerbState) : VerbState :=
  let a := argNumber st.rest
  { st with rest := a.1, afterIndex := a.2.1, goodArgNum := st.goodArgNum && !a.2.2 }

/-- The width of a directive: a `*` asks for an operand, and there is none
(`%!(BADWIDTH)` is written); otherwise a number is read, which is an error right after
an argument index. -/
def widthStep (st : VerbState) : VerbState :=
  match st.rest with
  | '*' :: rest =>
    { st with out := st.out ++ "%!(BADWIDTH)".data, rest := rest, afterIndex := false }
  | other =>
    { st with rest := (parsenum other).2.2,
              goodArgNum := st.goodArgNum && !(st.afterIndex && (parsenum other).2.1) }

/-- The precision of a directive, after a `.` that is not the last character of the
format (the test `i+1 < end && format[i] == '.'`; a `.` that ends the format is left to
be the verb): an argument index may precede it; a `*` asks for an operand, and there is
none (`%!(BADPREC)` is written); otherwise a number is read. -/
def precisionStep (st : VerbState) : VerbState :=
  match st.rest with
  | '.' :: c :: rest =>
    let st1 := indexStep
      { st with rest := c :: rest, goodArgNum := st.goodArgNum && !st.afterIndex }
    match st1.rest with
    | '*' :: rest2 =>
      { st1 with out := st1.out ++ "%!(BADPREC)".data, rest := rest2, afterIndex := false }
    | other => { st1 with rest := (parsenum other).2.2 }
  | _ => st

/-- The state in which `doPrintf` reaches the verb of a directive; the argument is the
text after the `%`. -/
def beforeVerb (cs : List Char) : VerbState :=
  let st := precisionStep (widthStep (indexStep ⟨[], skipFlags cs, false, true⟩))
  if st.afterIndex then st else indexStep st

/-- One directive of Go `fmt`'s `doPrintf` when the call has no operands; the argument
is the text after the `%`. Returns what is written and the unread text. After a format
that ends inside a directive nothing more is read. -/
def formatVerb (cs : List Char) : List Char × List Char :=
  let st := beforeVerb cs
  match st.rest with
  | [] => (st.out ++ "%!(NOVERB)".data, [])
  | verb :: rest =>
    if verb = '%' then (st.out ++ ['%'], rest)
    else if !st.goodArgNum then (st.out ++ "%!".data ++ [verb] ++ "(BADINDEX)".data, rest)
    else (st.out ++ "%!".data ++ [verb] ++ "(MISSING)".data, rest)

/-- Go `fmt`'s `doPrintf` when the call has no operands: text is copied up to the next
`%`, then one directive is processed. Every round reads at least one character, so a
`fuel` equal to the length of the format is enough. -/
def doPrintfAux : Nat → List Char → List Char
  | 0, _ => []
  | _, [] => []
  | fuel + 1, c :: cs =>
    if c = '%' then (formatVerb cs).1 ++ doPrintfAux fuel (formatVerb cs).2
    else c :: doPrintfAux fuel cs

/-- The message of `fmt.Errorf(format)` called without operands. -/
def Errorf0 (format : String) : String :=
  ⟨doPrintfAux format.data.length format.data⟩

/-! ## Data model -/

/-- Modelled from the spec: the type `models.ViaCEPResponse` of service-b is not among
the sources; the geocoding payload is `{cep, localidade, ...}` and the code reads its
fields `Cep` and `Localidade`. -/
structure ViaCEPResponse where
  Cep : String
  Localidade : String
  deriving DecidableEq, Repr

/-- Modelled from the spec: the field `current` of `models.WeatherAPIResponse`, with the
temperature `temp_c`. -/
structure WeatherAPICurrent where
  TempC : Float64
  deriving DecidableEq, Repr

/-- Modelled from the spec: the type `models.WeatherAPIResponse` of service-b is not
among the sources; the weather payload is `{current: {temp_c: number}}`. -/
structure WeatherAPIResponse where
  Current : WeatherAPICurrent
  deriving DecidableEq, Repr

/-- The type `WeatherResponse` (declared in service-a; the type `models.WeatherResponse`
of service-b has the same four fields and the same JSON shape). -/
structure WeatherResponse where
  City : String
  TempC : Float64
  TempF : Float64
  TempK : Float64
  deriving DecidableEq, Repr

/-- The type `models.CEPRequest` of service-a. -/
structure CEPRequest where
  CEP : String
  deriving DecidableEq, Repr

/-- What a handler writes with `c.JSON(status, body)`: either `{"error": msg}` or a
weather response. -/
inductive ResponseBody where
  | error (msg : String)
  | weather (r : WeatherResponse)
  deriving DecidableEq, Repr

/-- The status code and the body written by a handler. -/
structure HandlerResponse where
  status : Nat
  body : ResponseBody
  deriving DecidableEq, Repr

/-- An HTTP response as the client sees it: the status code and the body stream. -/
structure HttpResponse where
  StatusCode : Nat
  Body : String
  deriving DecidableEq, Repr

/-- The collaborators outside the repository. -/
structure World where
  /-- The call `http.NewRequestWithContext(ctx, "GET", url, nil)`: the error, if any. -/
  NewRequest : String → Except String Unit
  /-- The call `client.Do(req)` for a GET request to the URL. -/
  Do : String → Except String HttpResponse
  /-- The call `json.NewDecoder(resp.Body).Decode(&location)`. -/
  DecodeViaCEP : String → Except String ViaCEPResponse
  /-- The call `json.NewDecoder(resp.Body).Decode(&weatherResp)`. -/
  DecodeWeatherAPI : String → Except String WeatherAPIResponse
  /-- The call `url.QueryEscape`. -/
  QueryEscape : String → String
  /-- The call `io.ReadAll(resp.Body)`. -/
  ReadAll : String → Except String String
  /-- The call `json.Unmarshal(bodyBytes, &errorResp)`; the result is the field `Error`. -/
  UnmarshalError : String → Except String String
  /-- The call `json.Unmarshal(bodyBytes, &weatherResp)`. -/
  UnmarshalWeather : String → Except String WeatherResponse
  /-- Whether the compiler fuses `x*y + z` into one operation with a single rounding. -/
  fusedMulAdd : Bool

/-- The constant `http.StatusOK`. -/
abbrev StatusOK : Nat := 200
/-- The constant `http.StatusBadRequest`. -/
abbrev StatusBadRequest : Nat := 400
/-- The constant `http.StatusNotFound`. -/
abbrev StatusNotFound : Nat := 404
/-- The constant `http.StatusUnprocessableEntity`. -/
abbrev StatusUnprocessableEntity : Nat := 422
/-- The constant `http.StatusInternalServerError`. -/
abbrev StatusInternalServerError : Nat := 500
/-- The constant `http.StatusBadGateway`. -/
abbrev StatusBadGateway : Nat := 502
/-- The constant `http.StatusServiceUnavailable`. -/
abbrev StatusServiceUnavailable : Nat := 503

/-! ## Back service (service-b) -/

/-- The type `WeatherService`. -/
structure WeatherService where
  weatherAPIKey : String

/-- The method `getLocationByZipcode`: the result and the URLs requested. -/
def WeatherService.getLocationByZipcode (_s : WeatherService) (w : World) (zipcode : String) :
    Except String ViaCEPResponse × List String :=
  let url := "https://viacep.com.br/ws/" ++ zipcode ++ "/json/"
  match w.NewRequest url with
  | .error err => (.error err, [])
  | .ok _ =>
    match w.Do url with
    | .error err => (.error err, [url])
    | .ok resp =>
      if resp.StatusCode ≠ StatusOK then
        if resp.StatusCode = StatusBadGateway ∨ resp.StatusCode = StatusServiceUnavailable then
          (.error "viacep service temporarily unavailable", [url])
        else
          (.error "zipcode not found", [url])
      else
        match w.DecodeViaCEP resp.Body with
        | .error err => (.error err, [url])
        | .ok location =>
          if location.Cep = "" then (.error "zipcode not found", [url])
          else (.ok location, [url])

/-- The URL built by `getTemperatureByLocation`. -/
def WeatherService.weatherURL (s : WeatherService) (w : World) (location : String) : String :=
  "http://api.weatherapi.com/v1/current.json?key=" ++ s.weatherAPIKey ++ "&q="
    ++ w.QueryEscape location ++ "&aqi=no"

/-- The method `getTemperatureByLocation`: the result and the URLs requested. -/
def WeatherService.getTemperatureByLocation (s : WeatherService) (w : World)
    (location : String) : Except String Float64 × List String :=
  let url := s.weatherURL w location
  match w.NewRequest url with
  | .error err => (.error err, [])
  | .ok _ =>
    match w.Do url with
    | .error err => (.error err, [url])
    | .ok resp =>
      if resp.StatusCode ≠ StatusOK then
        (.error ("weather API error: " ++ toString resp.StatusCode), [url])
      else
        match w.DecodeWeatherAPI resp.Body with
        | .error err => (.error err, [url])
        | .ok weatherResp => (.ok weatherResp.Current.TempC, [url])

/-- The expression `tempC*1.8 + 32`: two rounded operations, or one fused operation. -/
def toFahrenheit (w : World) (tempC : Float64) : Float64 :=
  if w.fusedMulAdd then Float64.fma tempC (Float64.ofConst 18 10) (Float64.ofConst 32 1)
  else Float64.add (Float64.mul tempC (Float64.ofConst 18 10)) (Float64.ofConst 32 1)

/-- The expression `tempC + 273`. -/
def toKelvin (tempC : Float64) : Float64 :=
  Float64.add tempC (Float64.ofConst 273 1)

/-- The method `GetWeatherByZipcode`: the result and the URLs requested, in order. -/
def WeatherService.GetWeatherByZipcode (s : WeatherService) (w : World) (zipcode : String) :
    Except String WeatherResponse × List String :=
  if !isValidZipcode zipcode then (.error "invalid zipcode", [])
  else
    match s.getLocationByZipcode w zipcode with
    | (.error _, calls) => (.error "can not find zipcode", calls)
    | (.ok location, calls) =>
      if location.Localidade = "" then (.error "can not find zipcode", calls)
      else
        match s.getTemperatureByLocation w location.Localidade with
        | (.error err, calls2) => (.error err, calls ++ calls2)
        | (.ok tempC, calls2) =>
          let tempF := toFahrenheit w tempC
          let tempK := toKelvin tempC
          (.ok { City := location.Localidade, TempC := tempC, TempF := tempF, TempK := tempK },
            calls ++ calls2)

/-- The handler `WeatherHandler.GetWeather`, on the path parameter `zipcode`: the
response written and the URLs requested. -/
def WeatherHandler.GetWeather (weatherService : WeatherService) (w : World) (zipcode : String) :
    HandlerResponse × List String :=
  match weatherService.GetWeatherByZipcode w zipcode with
  | (.error err, calls) =>
    if err = "invalid zipcode" then
      (⟨StatusUnprocessableEntity, .error "invalid zipcode"⟩, calls)
    else if err = "can not find zipcode" then
      (⟨StatusNotFound, .error "can not find zipcode"⟩, calls)
    else
      (⟨StatusInternalServerError, .error "internal server error"⟩, calls)
  | (.ok weather, calls) => (⟨StatusOK, .weather weather⟩, calls)

/-! ## Front service (service-a) -/

/-- The type `CEPService` (its `httpClient` is the `Do` of the world). -/
structure CEPService where
  weatherServiceURL : String

/-- The method `ValidateAndGetWeather`: the result and the URLs requested. -/
def CEPService.ValidateAndGetWeather (s : CEPService) (w : World) (cep : String) :
    Except String WeatherResponse × List String :=
  if !isValidCEP cep then (.error "invalid zipcode", [])
  else
    let url := s.weatherServiceURL ++ "/weather/" ++ cep
    match w.NewRequest url with
    | .error err => (.error ("failed to create request: " ++ err), [])
    | .ok _ =>
      match w.Do url with
      | .error err => (.error ("failed to call weather service: " ++ err), [url])
      | .ok resp =>
        match w.ReadAll resp.Body with
        | .error err => (.error ("failed to read response body: " ++ err), [url])
        | .ok bodyBytes =>
          if resp.StatusCode ≠ StatusOK then
            match w.UnmarshalError bodyBytes with
            | .error _ => (.error ("weather service error: " ++ toString resp.StatusCode), [url])
            | .ok errorResp => (.error (Errorf0 errorResp), [url])
          else
            match w.UnmarshalWeather bodyBytes with
            | .error err => (.error ("failed to parse weather response: " ++ err), [url])
            | .ok weatherResp => (.ok weatherResp, [url])

/-- The handler `CEPHandler.GetWeatherByCEP`; `request` is the outcome of
`c.ShouldBindJSON(&request)`. -/
def CEPHandler.GetWeatherByCEP (cepService : CEPService) (w : World)
    (request : Except String CEPRequest) : HandlerResponse × List String :=
  match request with
  | .error _ => (⟨StatusBadRequest, .error "invalid request format"⟩, [])
  | .ok request =>
    match cepService.ValidateAndGetWeather w request.CEP with
    | (.error err, calls) =>
      if err = "invalid zipcode" then
        (⟨StatusUnprocessableEntity, .error "invalid zipcode"⟩, calls)
      else if err = "can not find zipcode" then
        (⟨StatusNotFound, .error "can not find zipcode"⟩, calls)
      else
        (⟨StatusInternalServerError, .error "internal server error"⟩, calls)
    | (.ok weather, calls) => (⟨StatusOK, .weather weather⟩, calls)

/-! ## Specification-side predicates and sample worlds -/

deriving instance DecidableEq for Except

/-- The status mapping of the specification for an error message `e` and a handler
response `r`: `invalid zipcode` gives 422 with that message, `can not find zipcode`
gives 404 with that message, every other message gives 500 with the generic message. -/
def SpecErrorMapping (e : String) (r : HandlerResponse) : Prop :=
  (e = "invalid zipcode" → r = ⟨422, .error "invalid zipcode"⟩) ∧
  (e = "can not find zipcode" → r = ⟨404, .error "can not find zipcode"⟩) ∧
  (e ≠ "invalid zipcode" → e ≠ "can not find zipcode" →
    r = ⟨500, .error "internal server error"⟩)

/-- The URL of the geocoding provider for a key. -/
def viaCEPURL (key : String) : String :=
  "https://viacep.com.br/ws/" ++ key ++ "/json/"

/-- A sample world for the back service: every request can be built and sent; the
geocoding provider answers with status `geoStatus` and a body that decodes as `payload`,
the weather provider with status `wxStatus` and a body that decodes to `tempC`. -/
def backWorld (geoStatus : Nat) (payload : Except String ViaCEPResponse) (wxStatus : Nat)
    (tempC : Float64) : World where
  NewRequest := fun _ => .ok ()
  Do := fun url =>
    if "https://viacep.com.br/".data.isPrefixOf url.data then .ok ⟨geoStatus, "geo"⟩
    else .ok ⟨wxStatus, "wx"⟩
  DecodeViaCEP := fun _ => payload
  DecodeWeatherAPI := fun _ => .ok ⟨⟨tempC⟩⟩
  QueryEscape := fun s => if s = "São Paulo" then "S%C3%A3o+Paulo" else s
  ReadAll := fun body => .ok body
  UnmarshalError := fun _ => .error "unexpected end of JSON input"
  UnmarshalWeather := fun _ => .error "unexpected end of JSON input"
  fusedMulAdd := false

/-- A sample world for the front service: the back service answers with status `status`
and a body whose error document decodes as `errorDoc`. -/
def frontWorld (status : Nat) (errorDoc : Except String String) : World where
  NewRequest := fun _ => .ok ()
  Do := fun _ => .ok ⟨status, "body"⟩
  DecodeViaCEP := fun _ => .error "unexpected end of JSON input"
  DecodeWeatherAPI := fun _ => .error "unexpected end of JSON input"
  QueryEscape := fun s => s
  ReadAll := fun body => .ok body
  UnmarshalError := fun _ => errorDoc
  UnmarshalWeather := fun _ => .error "unexpected end of JSON input"
  fusedMulAdd := false

/-- The payload of the geocoding provider for Avenida Paulista. -/
def saoPaulo : ViaCEPResponse := ⟨"01310-100", "São Paulo"⟩

/-- The `float64` value 25.0. -/
def celsius25 : Float64 := Float64.ofConst 25 1

/-! ## Lemmas on the validators -/

theorem replaceAllAux_single_empty (a : Char) (cs : List Char) :
    replaceAllAux [a] [] 0 cs = cs.filter (fun c => c != a) := by
  induction cs with
  | nil => rfl
  | cons c cs ih =>
    by_cases h : a = c
    · subst h
      simp [replaceAllAux, List.isPrefixOf, ih]
    · have h2 : ¬ c = a := fun e => h e.symm
      simp [replaceAllAux, List.isPrefixOf, ih, h, h2]

theorem cleanZipcode_data (s : String) : (cleanZipcode s).data = specStrip s := by
  show replaceAllAux [' '] [] 0 (replaceAllAux ['-'] [] 0 s.data) = _
  rw [replaceAllAux_single_empty, replaceAllAux_single_empty, List.filter_filter]
  unfold specStrip
  congr 1
  funext c
  exact Bool.and_comm _ _

theorem cleanCEP_data (s : String) : (cleanCEP s).data = specStrip s :=
  cleanZipcode_data s

theorem matchDigits_eq_some_nil (n : Nat) (cs : List Char) :
    matchDigits n cs = some [] ↔ cs.length = n ∧ ∀ c ∈ cs, '0' ≤ c ∧ c ≤ '9' := by
  induction n generalizing cs with
  | zero =>
    cases cs <;> simp [matchDigits]
  | succ n ih =>
    cases cs with
    | nil => simp [matchDigits]
    | cons c cs =>
      by_cases hc : isDigitClass c = true
      · have hc2 : '0' ≤ c ∧ c ≤ '9' := by simpa [isDigitClass] using hc
        simp [matchDigits, hc, ih, hc2]
      · have hc2 : ¬ ('0' ≤ c ∧ c ≤ '9') := by simpa [isDigitClass] using hc
        simp only [matchDigits, hc, Bool.false_eq_true, ↓reduceIte, List.length_cons,
          List.mem_cons, forall_eq_or_imp, false_iff, reduceCtorEq]
        intro h
        exact hc2 h.2.1

theorem matchEightDigits_iff (s : String) :
    matchEightDigits s = true ↔ s.data.length = 8 ∧ ∀ c ∈ s.data, '0' ≤ c ∧ c ≤ '9' := by
  rw [← matchDigits_eq_some_nil]
  unfold matchEightDigits
  split
  · next h => simp [h]
  · next h =>
    simp only [Bool.false_eq_true, false_iff]
    exact fun e => h e

/-- C1: for every string, the back validator `isValidZipcode` and the front validator
`isValidCEP` each return true exactly when the string, after removing every `-` and
every space, consists of exactly eight ASCII decimal digits; so the two agree. -/
theorem validators_iff_eight_digits (s : String) :
    (isValidZipcode s = true ↔ SpecValidPostalCode s) ∧
    (isValidCEP s = true ↔ SpecValidPostalCode s) ∧
    isValidZipcode s = isValidCEP s := by
  refine ⟨?_, ?_, rfl⟩
  · unfold isValidZipcode SpecValidPostalCode
    rw [matchEightDigits_iff, cleanZipcode_data]
  · unfold isValidCEP SpecValidPostalCode
    rw [matchEightDigits_iff, cleanCEP_data]

/-- The examples of the specification: `01310-100` is accepted, seven digits and a
trailing letter are rejected, by both validators. -/
theorem validators_examples :
    isValidZipcode "01310-100" = true ∧ isValidCEP "01310-100" = true ∧
    isValidZipcode "0131010" = false ∧ isValidCEP "0131010" = false ∧
    isValidZipcode "0131010a" = false ∧ isValidCEP "0131010a" = false := by
  decide

/-! ## Status mapping of the handlers -/

theorem GetWeather_error (bs : WeatherService) (w : World) (zipcode e : String)
    (h : (bs.GetWeatherByZipcode w zipcode).1 = .error e) :
    (WeatherHandler.GetWeather bs w zipcode).1 =
      if e = "invalid zipcode" then ⟨422, .error "invalid zipcode"⟩
      else if e = "can not find zipcode" then ⟨404, .error "can not find zipcode"⟩
      else ⟨500, .error "internal server error"⟩ := by
  unfold WeatherHandler.GetWeather
  split
  · next err calls heq =>
    rw [heq] at h
    simp only [Except.error.injEq] at h
    subst h
    split_ifs <;> rfl
  · next weather calls heq =>
    rw [heq] at h
    simp at h

theorem GetWeatherByCEP_error (fs : CEPService) (w : World) (cep e : String)
    (h : (fs.ValidateAndGetWeather w cep).1 = .error e) :
    (CEPHandler.GetWeatherByCEP fs w (.ok ⟨cep⟩)).1 =
      if e = "invalid zipcode" then ⟨422, .error "invalid zipcode"⟩
      else if e = "can not find zipcode" then ⟨404, .error "can not find zipcode"⟩
      else ⟨500, .error "internal server error"⟩ := by
  simp only [CEPHandler.GetWeatherByCEP]
  split
  · next err calls heq =>
    rw [heq] at h
    simp only [Except.error.injEq] at h
    subst h
    split_ifs <;> rfl
  · next weather calls heq =>
    rw [heq] at h
    simp at h

theorem specErrorMapping_ite (e : String) :
    SpecErrorMapping e
      (if e = "invalid zipcode" then ⟨422, .error "invalid zipcode"⟩
       else if e = "can not find zipcode" then ⟨404, .error "can not find zipcode"⟩
       else ⟨500, .error "internal server error"⟩) := by
  refine ⟨fun h => ?_, fun h => ?_, fun h1 h2 => ?_⟩
  · rw [if_pos h]
  · subst h
    rw [if_neg (by decide), if_pos rfl]
  · rw [if_neg h1, if_neg h2]

/-- C2: for every error `e` returned by the pipeline, the back handler `GetWeather` and
the front handler `GetWeatherByCEP` choose the same response: 422 with
`invalid zipcode` when `e` is that message, 404 with `can not find zipcode` when `e` is
that message, and 500 with `internal server error` for every other message. -/
theorem handlers_error_mapping (bs : WeatherService) (fs : CEPService) (w : World)
    (e : String) :
    (∀ zipcode, (bs.GetWeatherByZipcode w zipcode).1 = .error e →
      SpecErrorMapping e (WeatherHandler.GetWeather bs w zipcode).1) ∧
    (∀ cep, (fs.ValidateAndGetWeather w cep).1 = .error e →
      SpecErrorMapping e (CEPHandler.GetWeatherByCEP fs w (.ok ⟨cep⟩)).1) := by
  constructor
  · intro zipcode h
    rw [GetWeather_error bs w zipcode e h]
    exact specErrorMapping_ite e
  · intro cep h
    rw [GetWeatherByCEP_error fs w cep e h]
    exact specErrorMapping_ite e

/-- Witness of C2: a malformed code is answered with 422 by both handlers. -/
theorem handlers_error_mapping_witness :
    (WeatherHandler.GetWeather ⟨"key"⟩ (backWorld 200 (.ok saoPaulo) 200 celsius25) "123").1
      = ⟨422, .error "invalid zipcode"⟩ ∧
    (CEPHandler.GetWeatherByCEP ⟨"http://service-b:8081"⟩ (backWorld 200 (.ok saoPaulo) 200 celsius25)
      (.ok ⟨"123"⟩)).1 = ⟨422, .error "invalid zipcode"⟩ :=
  ⟨((handlers_error_mapping ⟨"key"⟩ ⟨"http://service-b:8081"⟩
      (backWorld 200 (.ok saoPaulo) 200 celsius25) "invalid zipcode").1 "123" (by decide)).1 rfl,
   ((handlers_error_mapping ⟨"key"⟩ ⟨"http://service-b:8081"⟩
      (backWorld 200 (.ok saoPaulo) 200 celsius25) "invalid zipcode").2 "123" (by decide)).1 rfl⟩

/-! ## Structure of the resolvers and of the pipeline -/

theorem getLocationByZipcode_ok (s : WeatherService) (w : World) (zipcode : String)
    (loc : ViaCEPResponse) (h : (s.getLocationByZipcode w zipcode).1 = .ok loc) :
    ∃ resp, w.Do ("https://viacep.com.br/ws/" ++ zipcode ++ "/json/") = .ok resp ∧
      resp.StatusCode = 200 ∧ w.DecodeViaCEP resp.Body = .ok loc ∧ loc.Cep ≠ "" := by
  simp only [WeatherService.getLocationByZipcode] at h
  split at h
  · simp at h
  · split at h
    · simp at h
    · next resp hdo =>
      split at h
      · split at h <;> simp at h
      · next hst =>
        split at h
        · simp at h
        · next location hdec =>
          split at h
          · simp at h
          · next hcep =>
            simp only [Except.ok.injEq] at h
            subst h
            exact ⟨resp, hdo, by simpa using hst, hdec, hcep⟩

theorem getTemperatureByLocation_ok (s : WeatherService) (w : World) (location : String)
    (tempC : Float64) (h : (s.getTemperatureByLocation w location).1 = .ok tempC) :
    ∃ resp weatherResp, w.Do (s.weatherURL w location) = .ok resp ∧
      resp.StatusCode = 200 ∧ w.DecodeWeatherAPI resp.Body = .ok weatherResp ∧
      tempC = weatherResp.Current.TempC := by
  simp only [WeatherService.getTemperatureByLocation] at h
  split at h
  · simp at h
  · split at h
    · simp at h
    · next resp hdo =>
      split at h
      · simp at h
      · next hst =>
        split at h
        · simp at h
        · next weatherResp hdec =>
          simp only [Except.ok.injEq] at h
          exact ⟨resp, weatherResp, hdo, by simpa using hst, hdec, h.symm⟩

theorem GetWeatherByZipcode_ok (s : WeatherService) (w : World) (zipcode : String)
    (r : WeatherResponse) (h : (s.GetWeatherByZipcode w zipcode).1 = .ok r) :
    isValidZipcode zipcode = true ∧
    ∃ loc tempC, (s.getLocationByZipcode w zipcode).1 = .ok loc ∧ loc.Localidade ≠ "" ∧
      (s.getTemperatureByLocation w loc.Localidade).1 = .ok tempC ∧
      r = ⟨loc.Localidade, tempC, toFahrenheit w tempC, toKelvin tempC⟩ := by
  simp only [WeatherService.GetWeatherByZipcode] at h
  split at h
  · simp at h
  · next hv =>
    refine ⟨by simpa using hv, ?_⟩
    split at h
    · simp at h
    · next loc calls hloc =>
      split at h
      · simp at h
      · next hne =>
        split at h
        · simp at h
        · next tempC calls2 htemp =>
          simp only [Except.ok.injEq] at h
          exact ⟨loc, tempC, by rw [hloc], hne, by rw [htemp], h.symm⟩

/-! ## Unit conversion -/

set_option maxRecDepth 100000 in
theorem toFahrenheit_25 (w : World) : toFahrenheit w celsius25 = Float64.ofConst 77 1 := by
  unfold toFahrenheit
  split
  · decide
  · decide

set_option maxRecDepth 100000 in
theorem toKelvin_25 : toKelvin celsius25 = Float64.ofConst 298 1 ∧
    toKelvin celsius25 ≠ Float64.ofConst 29815 100 := by
  decide

/-- C3: whenever `GetWeatherByZipcode` succeeds, the code passed validation, both
providers answered 200, the city of the result is the locality name decoded from the
geocoding answer, `temp_C` is the Celsius value decoded from the weather answer,
`temp_F` is `temp_C*1.8+32` and `temp_K` is `temp_C+273` in `float64` arithmetic; in
particular 25.0 gives 77.0 and 298.0 (not 298.15). -/
theorem pipeline_success_result (s : WeatherService) (w : World) (zipcode : String)
    (r : WeatherResponse) (h : (s.GetWeatherByZipcode w zipcode).1 = .ok r) :
    isValidZipcode zipcode = true ∧
    (∃ geo payload wx weather,
      w.Do ("https://viacep.com.br/ws/" ++ zipcode ++ "/json/") = .ok geo ∧
      w.DecodeViaCEP geo.Body = .ok payload ∧
      w.Do (s.weatherURL w payload.Localidade) = .ok wx ∧
      w.DecodeWeatherAPI wx.Body = .ok weather ∧
      r.City = payload.Localidade ∧ r.TempC = weather.Current.TempC) ∧
    r.TempF =
      (if w.fusedMulAdd then
        Float64.fma r.TempC (Float64.ofConst 18 10) (Float64.ofConst 32 1)
      else Float64.add (Float64.mul r.TempC (Float64.ofConst 18 10)) (Float64.ofConst 32 1)) ∧
    r.TempK = Float64.add r.TempC (Float64.ofConst 273 1) ∧
    (r.TempC = Float64.ofConst 25 1 →
      r.TempF = Float64.ofConst 77 1 ∧ r.TempK = Float64.ofConst 298 1 ∧
      r.TempK ≠ Float64.ofConst 29815 100) := by
  obtain ⟨hv, loc, tempC, hloc, _, htemp, hr⟩ := GetWeatherByZipcode_ok s w zipcode r h
  obtain ⟨geo, hgeo, _, hdec, _⟩ := getLocationByZipcode_ok s w zipcode loc hloc
  obtain ⟨wx, weather, hwx, _, hwdec, htc⟩ := getTemperatureByLocation_ok s w _ tempC htemp
  subst hr
  refine ⟨hv, ⟨geo, loc, wx, weather, hgeo, hdec, hwx, hwdec, rfl, htc⟩, rfl, rfl, ?_⟩
  intro h25
  have h25b : tempC = celsius25 := h25
  subst h25b
  exact ⟨toFahrenheit_25 w, toKelvin_25.1, toKelvin_25.2⟩

set_option maxRecDepth 100000 in
/-- Witness of C3: the end-to-end scenario of the specification. -/
theorem pipeline_success_result_witness :
    (WeatherService.GetWeatherByZipcode ⟨"key"⟩
      (backWorld 200 (.ok saoPaulo) 200 celsius25) "01310100").1
      = .ok ⟨"São Paulo", Float64.ofConst 25 1, Float64.ofConst 77 1, Float64.ofConst 298 1⟩ ∧
    Float64.ofConst 77 1 =
      Float64.add (Float64.mul (Float64.ofConst 25 1) (Float64.ofConst 18 10))
        (Float64.ofConst 32 1) ∧
    Float64.ofConst 298 1 = Float64.add (Float64.ofConst 25 1) (Float64.ofConst 273 1) :=
  ⟨by decide,
   (pipeline_success_result ⟨"key"⟩ (backWorld 200 (.ok saoPaulo) 200 celsius25) "01310100"
      ⟨"São Paulo", Float64.ofConst 25 1, Float64.ofConst 77 1, Float64.ofConst 298 1⟩
      (by decide)).2.2.1,
   (pipeline_success_result ⟨"key"⟩ (backWorld 200 (.ok saoPaulo) 200 celsius25) "01310100"
      ⟨"São Paulo", Float64.ofConst 25 1, Float64.ofConst 77 1, Float64.ofConst 298 1⟩
      (by decide)).2.2.2.1⟩

/-! ## Failures of the locality stage -/

theorem GetWeatherByZipcode_locality_error (s : WeatherService) (w : World) (zipcode e : String)
    (hv : isValidZipcode zipcode = true)
    (h : (s.getLocationByZipcode w zipcode).1 = .error e) :
    s.GetWeatherByZipcode w zipcode =
      (.error "can not find zipcode", (s.getLocationByZipcode w zipcode).2) := by
  simp only [WeatherService.GetWeatherByZipcode, hv, Bool.not_true, Bool.false_eq_true,
    ↓reduceIte]
  split
  · next e2 calls heq => rw [heq]
  · next loc calls heq =>
    rw [heq] at h
    simp at h

theorem GetWeatherByZipcode_empty_locality (s : WeatherService) (w : World) (zipcode : String)
    (loc : ViaCEPResponse) (hv : isValidZipcode zipcode = true)
    (h : (s.getLocationByZipcode w zipcode).1 = .ok loc) (he : loc.Localidade = "") :
    s.GetWeatherByZipcode w zipcode =
      (.error "can not find zipcode", (s.getLocationByZipcode w zipcode).2) := by
  simp only [WeatherService.GetWeatherByZipcode, hv, Bool.not_true, Bool.false_eq_true,
    ↓reduceIte]
  split
  · next e2 calls heq => rw [heq]
  · next loc2 calls heq =>
    rw [heq] at h
    simp only [Except.ok.injEq] at h
    subst h
    rw [if_pos he, heq]

/-- Every reason listed for a failure of the locality stage makes `getLocationByZipcode`
return an error: the request cannot be built, the transport fails, the status is not 200
(404, 502, 503 or any other), the body cannot be decoded, or the echo field is empty. -/
theorem getLocationByZipcode_failure_reasons (s : WeatherService) (w : World)
    (zipcode : String)
    (h : (∃ e, w.NewRequest (viaCEPURL zipcode) = .error e) ∨
      (∃ e, w.Do (viaCEPURL zipcode) = .error e) ∨
      (∃ resp, w.Do (viaCEPURL zipcode) = .ok resp ∧
        (resp.StatusCode ≠ 200 ∨ (∃ e, w.DecodeViaCEP resp.Body = .error e) ∨
          ∃ loc, w.DecodeViaCEP resp.Body = .ok loc ∧ loc.Cep = ""))) :
    ∃ e, (s.getLocationByZipcode w zipcode).1 = .error e := by
  unfold viaCEPURL at h
  simp only [WeatherService.getLocationByZipcode]
  split
  · next e _ => exact ⟨e, rfl⟩
  · next hreq =>
    split
    · next e _ => exact ⟨e, rfl⟩
    · next resp hdo =>
      split
      · split <;> exact ⟨_, rfl⟩
      · next hst =>
        split
        · next e _ => exact ⟨e, rfl⟩
        · next loc hdec =>
          split
          · exact ⟨_, rfl⟩
          · next hcep =>
            exfalso
            rcases h with ⟨e, he⟩ | ⟨e, he⟩ | ⟨resp2, hdo2, h3⟩
            · rw [hreq] at he
              simp at he
            · rw [hdo] at he
              simp at he
            · rw [hdo] at hdo2
              simp only [Except.ok.injEq] at hdo2
              subst hdo2
              rcases h3 with h3 | ⟨e, he⟩ | ⟨loc2, hl, hc⟩
              · exact hst h3
              · rw [hdec] at he
                simp at he
              · rw [hdec] at hl
                simp only [Except.ok.injEq] at hl
                subst hl
                exact hcep hc

/-- C4: for a postal code that passes validation, if the locality stage fails for any
reason or returns an empty locality name, `GetWeatherByZipcode` returns the error
`can not find zipcode` (never the resolver's own error) and the back handler answers
404 with that message. -/
theorem locality_failure_is_not_found (s : WeatherService) (w : World) (zipcode : String)
    (hv : isValidZipcode zipcode = true)
    (hfail : (∃ e, (s.getLocationByZipcode w zipcode).1 = .error e) ∨
      (∃ loc, (s.getLocationByZipcode w zipcode).1 = .ok loc ∧ loc.Localidade = "")) :
    (s.GetWeatherByZipcode w zipcode).1 = .error "can not find zipcode" ∧
    (WeatherHandler.GetWeather s w zipcode).1 = ⟨404, .error "can not find zipcode"⟩ := by
  have hp : (s.GetWeatherByZipcode w zipcode).1 = .error "can not find zipcode" := by
    rcases hfail with ⟨e, he⟩ | ⟨loc, hl, he⟩
    · rw [GetWeatherByZipcode_locality_error s w zipcode e hv he]
    · rw [GetWeatherByZipcode_empty_locality s w zipcode loc hv hl he]
  refine ⟨hp, ?_⟩
  rw [GetWeather_error s w zipcode _ hp, if_neg (by decide), if_pos rfl]

/-- Witness of C4: the geocoding provider answers 503. -/
theorem locality_failure_is_not_found_witness :
    (WeatherService.getLocationByZipcode ⟨"key"⟩
      (backWorld 503 (.ok saoPaulo) 200 celsius25) "01310-100").1
      = .error "viacep service temporarily unavailable" ∧
    (WeatherService.GetWeatherByZipcode ⟨"key"⟩
      (backWorld 503 (.ok saoPaulo) 200 celsius25) "01310-100").1
      = .error "can not find zipcode" ∧
    (WeatherHandler.GetWeather ⟨"key"⟩
      (backWorld 503 (.ok saoPaulo) 200 celsius25) "01310-100").1
      = ⟨404, .error "can not find zipcode"⟩ :=
  ⟨by decide,
   locality_failure_is_not_found ⟨"key"⟩ (backWorld 503 (.ok saoPaulo) 200 celsius25)
     "01310-100" (by decide)
     (Or.inl ⟨"viacep service temporarily unavailable", by decide⟩)⟩

/-! ## Failures of the temperature stage -/

theorem weather_error_ne (t : String) :
    "weather API error: " ++ t ≠ "invalid zipcode" ∧
    "weather API error: " ++ t ≠ "can not find zipcode" := by
  have h1 : ("weather API error: " ++ t).data.head? = some 'w' := by
    rw [String.data_append]
    rfl
  constructor
  · intro h
    rw [h] at h1
    exact absurd h1 (by decide)
  · intro h
    rw [h] at h1
    exact absurd h1 (by decide)

theorem getTemperatureByLocation_status (s : WeatherService) (w : World) (location : String)
    (resp : HttpResponse) (hreq : w.NewRequest (s.weatherURL w location) = .ok ())
    (hdo : w.Do (s.weatherURL w location) = .ok resp) (hst : resp.StatusCode ≠ 200) :
    s.getTemperatureByLocation w location =
      (.error ("weather API error: " ++ toString resp.StatusCode), [s.weatherURL w location]) := by
  simp only [WeatherService.getTemperatureByLocation, hreq, hdo]
  rw [if_pos hst]

theorem GetWeatherByZipcode_temperature_error (s : WeatherService) (w : World)
    (zipcode e : String) (loc : ViaCEPResponse) (hv : isValidZipcode zipcode = true)
    (hloc : (s.getLocationByZipcode w zipcode).1 = .ok loc) (hne : loc.Localidade ≠ "")
    (ht : (s.getTemperatureByLocation w loc.Localidade).1 = .error e) :
    (s.GetWeatherByZipcode w zipcode).1 = .error e := by
  simp only [WeatherService.GetWeatherByZipcode, hv, Bool.not_true, Bool.false_eq_true,
    ↓reduceIte]
  split
  · next e2 calls heq =>
    rw [heq] at hloc
    simp at hloc
  · next loc2 calls heq =>
    rw [heq] at hloc
    simp only [Except.ok.injEq] at hloc
    subst hloc
    rw [if_neg hne]
    split
    · next e3 calls2 heq2 =>
      rw [heq2] at ht
      simp only [Except.error.injEq] at ht
      rw [ht]
    · next t calls2 heq2 =>
      rw [heq2] at ht
      simp at ht

/-- C5: when validation and the locality stage succeed and the weather provider answers
with a status `n` outside 200..299, `getTemperatureByLocation` fails with
`weather API error: n`, `GetWeatherByZipcode` returns that same error, which is neither
`invalid zipcode` nor `can not find zipcode`, and the back handler answers 500. -/
theorem weather_status_error_is_internal (s : WeatherService) (w : World) (zipcode : String)
    (loc : ViaCEPResponse) (resp : HttpResponse) (n : Nat)
    (hv : isValidZipcode zipcode = true)
    (hloc : (s.getLocationByZipcode w zipcode).1 = .ok loc) (hne : loc.Localidade ≠ "")
    (hreq : w.NewRequest (s.weatherURL w loc.Localidade) = .ok ())
    (hdo : w.Do (s.weatherURL w loc.Localidade) = .ok resp)
    (hn : resp.StatusCode = n) (h2xx : ¬ (200 ≤ n ∧ n < 300)) :
    (s.getTemperatureByLocation w loc.Localidade).1
      = .error ("weather API error: " ++ toString n) ∧
    (s.GetWeatherByZipcode w zipcode).1 = .error ("weather API error: " ++ toString n) ∧
    "weather API error: " ++ toString n ≠ "invalid zipcode" ∧
    "weather API error: " ++ toString n ≠ "can not find zipcode" ∧
    (WeatherHandler.GetWeather s w zipcode).1 = ⟨500, .error "internal server error"⟩ ∧
    (WeatherHandler.GetWeather s w zipcode).1.status ≠ 404 ∧
    (WeatherHandler.GetWeather s w zipcode).1.status ≠ 422 := by
  subst hn
  have hst : resp.StatusCode ≠ 200 := by omega
  have ht : (s.getTemperatureByLocation w loc.Localidade).1
      = .error ("weather API error: " ++ toString resp.StatusCode) := by
    rw [getTemperatureByLocation_status s w _ resp hreq hdo hst]
  have hp := GetWeatherByZipcode_temperature_error s w zipcode _ loc hv hloc hne ht
  have hne2 := weather_error_ne (toString resp.StatusCode)
  have hh : (WeatherHandler.GetWeather s w zipcode).1
      = ⟨500, .error "internal server error"⟩ := by
    rw [GetWeather_error s w zipcode _ hp, if_neg hne2.1, if_neg hne2.2]
  refine ⟨ht, hp, hne2.1, hne2.2, hh, ?_, ?_⟩ <;> rw [hh] <;> decide

/-- Witness of C5: the weather provider answers 401. -/
theorem weather_status_error_is_internal_witness :
    (WeatherService.GetWeatherByZipcode ⟨"key"⟩
      (backWorld 200 (.ok saoPaulo) 401 celsius25) "01310100").1
      = .error "weather API error: 401" ∧
    (WeatherHandler.GetWeather ⟨"key"⟩
      (backWorld 200 (.ok saoPaulo) 401 celsius25) "01310100").1
      = ⟨500, .error "internal server error"⟩ :=
  ⟨(weather_status_error_is_internal ⟨"key"⟩ (backWorld 200 (.ok saoPaulo) 401 celsius25)
      "01310100" saoPaulo ⟨401, "wx"⟩ 401 (by decide) (by decide) (by decide) (by decide)
      (by decide) rfl (by decide)).2.1,
   (weather_status_error_is_internal ⟨"key"⟩ (backWorld 200 (.ok saoPaulo) 401 celsius25)
      "01310100" saoPaulo ⟨401, "wx"⟩ 401 (by decide) (by decide) (by decide) (by decide)
      (by decide) rfl (by decide)).2.2.2.2.1⟩

/-! ## Rejected input -/

/-- C6: for a raw postal code that fails validation, `GetWeatherByZipcode` (back) and
`ValidateAndGetWeather` (front) return the error `invalid zipcode` and issue no outbound
request at all; the handlers answer 422, again without any outbound request. -/
theorem invalid_code_no_outbound_calls (bs : WeatherService) (fs : CEPService) (w : World)
    (raw : String) (hb : isValidZipcode raw = false) (hf : isValidCEP raw = false) :
    bs.GetWeatherByZipcode w raw = (.error "invalid zipcode", []) ∧
    fs.ValidateAndGetWeather w raw = (.error "invalid zipcode", []) ∧
    WeatherHandler.GetWeather bs w raw = (⟨422, .error "invalid zipcode"⟩, []) ∧
    CEPHandler.GetWeatherByCEP fs w (.ok ⟨raw⟩) = (⟨422, .error "invalid zipcode"⟩, []) := by
  have h1 : bs.GetWeatherByZipcode w raw = (.error "invalid zipcode", []) := by
    simp [WeatherService.GetWeatherByZipcode, hb]
  have h2 : fs.ValidateAndGetWeather w raw = (.error "invalid zipcode", []) := by
    simp [CEPService.ValidateAndGetWeather, hf]
  refine ⟨h1, h2, ?_, ?_⟩
  · simp only [WeatherHandler.GetWeather, h1]
    rfl
  · simp only [CEPHandler.GetWeatherByCEP, h2]
    rfl

/-- Witness of C6: the input `123` of the specification. -/
theorem invalid_code_no_outbound_calls_witness :
    WeatherService.GetWeatherByZipcode ⟨"key"⟩ (backWorld 200 (.ok saoPaulo) 200 celsius25) "123"
      = (.error "invalid zipcode", []) ∧
    CEPService.ValidateAndGetWeather ⟨"http://service-b:8081"⟩
      (frontWorld 200 (.error "unexpected end of JSON input")) "123"
      = (.error "invalid zipcode", []) :=
  ⟨(invalid_code_no_outbound_calls ⟨"key"⟩ ⟨"http://service-b:8081"⟩
      (backWorld 200 (.ok saoPaulo) 200 celsius25) "123" (by decide) (by decide)).1,
   (invalid_code_no_outbound_calls ⟨"key"⟩ ⟨"http://service-b:8081"⟩
      (frontWorld 200 (.error "unexpected end of JSON input")) "123" (by decide)
      (by decide)).2.1⟩

/-! ## The formatter reads its format once -/

theorem parsenumAux_rest_length (num : Nat) (isnum : Bool) (cs : List Char) :
    (parsenumAux num isnum cs).2.2.length ≤ cs.length := by
  induction cs generalizing num isnum with
  | nil => simp [parsenumAux]
  | cons c cs ih =>
    unfold parsenumAux
    split
    · split
      · simp
      · exact Nat.le_succ_of_le (ih _ _)
    · exact Nat.le_refl _

theorem splitAtBracket_length (cs inner after : List Char)
    (h : splitAtBracket cs = some (inner, after)) : after.length ≤ cs.length := by
  induction cs generalizing inner with
  | nil => simp [splitAtBracket] at h
  | cons c cs ih =>
    unfold splitAtBracket at h
    split at h
    · simp only [Option.some.injEq, Prod.mk.injEq] at h
      rw [← h.2]
      exact Nat.le_succ _
    · split at h
      · simp at h
      · next inner2 after2 heq =>
        simp only [Option.some.injEq, Prod.mk.injEq] at h
        obtain ⟨_, h2⟩ := h
        subst h2
        exact Nat.le_succ_of_le (ih inner2 heq)

theorem argNumber_rest_length (cs : List Char) : (argNumber cs).1.length ≤ cs.length := by
  unfold argNumber
  split
  · exact Nat.le_refl _
  · next c tail =>
    split
    · split
      · exact Nat.le_succ _
      · split
        · exact Nat.le_succ _
        · next inner after heq =>
          exact Nat.le_succ_of_le (splitAtBracket_length tail inner after heq)
    · exact Nat.le_refl _

theorem skipFlags_length (cs : List Char) : (skipFlags cs).length ≤ cs.length := by
  induction cs with
  | nil => simp [skipFlags]
  | cons c cs ih =>
    unfold skipFlags
    split
    · exact Nat.le_succ_of_le ih
    · exact Nat.le_refl _

theorem indexStep_rest_length (st : VerbState) :
    (indexStep st).rest.length ≤ st.rest.length :=
  argNumber_rest_length st.rest

theorem widthStep_rest_length (st : VerbState) :
    (widthStep st).rest.length ≤ st.rest.length := by
  unfold widthStep
  split
  · next rest heq =>
    rw [heq]
    exact Nat.le_succ _
  · exact parsenumAux_rest_length _ _ _

theorem precisionStep_rest_length (st : VerbState) :
    (precisionStep st).rest.length ≤ st.rest.length := by
  unfold precisionStep
  split
  · next c rest heq =>
    rw [heq]
    have h1 := indexStep_rest_length
      ⟨st.out, c :: rest, st.afterIndex, st.goodArgNum && !st.afterIndex⟩
    have h2 := parsenumAux_rest_length 0 false
      (indexStep ⟨st.out, c :: rest, st.afterIndex, st.goodArgNum && !st.afterIndex⟩).rest
    simp only at h1
    simp only [List.length_cons]
    split
    · next rest2 heq2 =>
      rw [heq2] at h1
      simp only [List.length_cons] at h1 ⊢
      omega
    · exact Nat.le_succ_of_le (Nat.le_trans h2 h1)
  · exact Nat.le_refl _

theorem beforeVerb_rest_length (cs : List Char) : (beforeVerb cs).rest.length ≤ cs.length := by
  have h0 := skipFlags_length cs
  have h1 := indexStep_rest_length ⟨[], skipFlags cs, false, true⟩
  have h2 := widthStep_rest_length (indexStep ⟨[], skipFlags cs, false, true⟩)
  have h3 := precisionStep_rest_length (widthStep (indexStep ⟨[], skipFlags cs, false, true⟩))
  have h4 := indexStep_rest_length
    (precisionStep (widthStep (indexStep ⟨[], skipFlags cs, false, true⟩)))
  simp only at h1
  unfold beforeVerb
  simp only
  split <;> omega

theorem formatVerb_rest_length (cs : List Char) : (formatVerb cs).2.length ≤ cs.length := by
  have h := beforeVerb_rest_length cs
  unfold formatVerb
  simp only
  split
  · simp
  · next verb rest heq =>
    rw [heq] at h
    simp only [List.length_cons] at h
    split
    · simp only
      omega
    · split <;> (simp only; omega)

/-- The output of `doPrintf` does not depend on the fuel, once the fuel is at least the
length of the format: the model never stops early. -/
theorem doPrintfAux_fuel (cs : List Char) (f g : Nat) (hf : cs.length ≤ f)
    (hg : cs.length ≤ g) : doPrintfAux f cs = doPrintfAux g cs := by
  induction f generalizing g cs with
  | zero =>
    have hcs : cs = [] := List.length_eq_zero.mp (Nat.le_zero.mp hf)
    subst hcs
    cases g <;> rfl
  | succ f ih =>
    cases cs with
    | nil => cases g <;> rfl
    | cons c cs =>
      cases g with
      | zero => simp at hg
      | succ g =>
        have hf2 : cs.length ≤ f := by simpa using hf
        have hg2 : cs.length ≤ g := by simpa using hg
        have hr := formatVerb_rest_length cs
        simp only [doPrintfAux]
        split
        · rw [ih (formatVerb cs).2 g (Nat.le_trans hr hf2) (Nat.le_trans hr hg2)]
        · rw [ih cs g hf2 hg2]

/-! ## Errors relayed by the front service -/

theorem doPrintfAux_no_percent (cs : List Char) (fuel : Nat) (hf : cs.length ≤ fuel)
    (h : ∀ c ∈ cs, c ≠ '%') : doPrintfAux fuel cs = cs := by
  induction cs generalizing fuel with
  | nil => cases fuel <;> rfl
  | cons c cs ih =>
    cases fuel with
    | zero => simp at hf
    | succ fuel =>
      have hc : c ≠ '%' := h c (List.mem_cons_self _ _)
      have hcs : ∀ d ∈ cs, d ≠ '%' := fun d hd => h d (List.mem_cons_of_mem _ hd)
      have hl : cs.length ≤ fuel := by simpa using hf
      simp only [doPrintfAux, hc, ↓reduceIte, ih fuel hl hcs]

/-- A message without `%` is returned unchanged by `fmt.Errorf(message)`. -/
theorem Errorf0_no_percent (m : String) (h : ∀ c ∈ m.data, c ≠ '%') : Errorf0 m = m := by
  unfold Errorf0
  rw [doPrintfAux_no_percent m.data _ (Nat.le_refl _) h]

/-- Sample outputs of `fmt.Errorf(format)` without operands: a trailing `%` has no verb,
a trailing `.` is itself the verb, `%%` is a percent sign. -/
theorem Errorf0_examples :
    Errorf0 "100%" = "100%!(NOVERB)" ∧ Errorf0 "100%." = "100%!.(MISSING)" ∧
    Errorf0 "50% off" = "50%!o(MISSING)ff" ∧ Errorf0 "a%%b" = "a%b" ∧
    Errorf0 "%.2f" = "%!f(MISSING)" ∧ Errorf0 "invalid zipcode" = "invalid zipcode" := by
  decide

theorem ValidateAndGetWeather_error_body (fs : CEPService) (w : World) (cep : String)
    (resp : HttpResponse) (bodyBytes : String) (hv : isValidCEP cep = true)
    (hreq : w.NewRequest (fs.weatherServiceURL ++ "/weather/" ++ cep) = .ok ())
    (hdo : w.Do (fs.weatherServiceURL ++ "/weather/" ++ cep) = .ok resp)
    (hread : w.ReadAll resp.Body = .ok bodyBytes) (hst : resp.StatusCode ≠ 200) :
    (fs.ValidateAndGetWeather w cep).1 =
      match w.UnmarshalError bodyBytes with
      | .error _ => .error ("weather service error: " ++ toString resp.StatusCode)
      | .ok m => .error (Errorf0 m) := by
  simp only [CEPService.ValidateAndGetWeather, hv, Bool.not_true, Bool.false_eq_true,
    ↓reduceIte, hreq, hdo, hread]
  rw [if_pos hst]
  split <;> rfl

/-- The three error responses that the back handler can write are relayed by the front
service with the same message, and by the front handler with the same status. -/
theorem front_relays_back_errors (fs : CEPService) (w : World) (cep : String)
    (resp : HttpResponse) (bodyBytes m : String) (hv : isValidCEP cep = true)
    (hreq : w.NewRequest (fs.weatherServiceURL ++ "/weather/" ++ cep) = .ok ())
    (hdo : w.Do (fs.weatherServiceURL ++ "/weather/" ++ cep) = .ok resp)
    (hread : w.ReadAll resp.Body = .ok bodyBytes) (hst : resp.StatusCode ≠ 200)
    (hm : w.UnmarshalError bodyBytes = .ok m)
    (hback : (resp.StatusCode = 422 ∧ m = "invalid zipcode") ∨
      (resp.StatusCode = 404 ∧ m = "can not find zipcode") ∨
      (resp.StatusCode = 500 ∧ m = "internal server error")) :
    (fs.ValidateAndGetWeather w cep).1 = .error m ∧
    (CEPHandler.GetWeatherByCEP fs w (.ok ⟨cep⟩)).1 = ⟨resp.StatusCode, .error m⟩ := by
  have h := ValidateAndGetWeather_error_body fs w cep resp bodyBytes hv hreq hdo hread hst
  rw [hm] at h
  simp only at h
  rcases hback with ⟨h1, h2⟩ | ⟨h1, h2⟩ | ⟨h1, h2⟩
  · subst h2
    have h3 : Errorf0 "invalid zipcode" = "invalid zipcode" := by decide
    rw [h3] at h
    refine ⟨h, ?_⟩
    rw [GetWeatherByCEP_error fs w cep _ h, h1]
    rfl
  · subst h2
    have h3 : Errorf0 "can not find zipcode" = "can not find zipcode" := by decide
    rw [h3] at h
    refine ⟨h, ?_⟩
    rw [GetWeatherByCEP_error fs w cep _ h, h1]
    rfl
  · subst h2
    have h3 : Errorf0 "internal server error" = "internal server error" := by decide
    rw [h3] at h
    refine ⟨h, ?_⟩
    rw [GetWeatherByCEP_error fs w cep _ h, h1]
    rfl

/-- An error body that cannot be parsed gives `weather service error: <status>` and the
front handler answers 500. -/
theorem front_unparsable_error_body (fs : CEPService) (w : World) (cep : String)
    (resp : HttpResponse) (bodyBytes e : String) (hv : isValidCEP cep = true)
    (hreq : w.NewRequest (fs.weatherServiceURL ++ "/weather/" ++ cep) = .ok ())
    (hdo : w.Do (fs.weatherServiceURL ++ "/weather/" ++ cep) = .ok resp)
    (hread : w.ReadAll resp.Body = .ok bodyBytes) (hst : resp.StatusCode ≠ 200)
    (hm : w.UnmarshalError bodyBytes = .error e) :
    (fs.ValidateAndGetWeather w cep).1
      = .error ("weather service error: " ++ toString resp.StatusCode) ∧
    (CEPHandler.GetWeatherByCEP fs w (.ok ⟨cep⟩)).1
      = ⟨500, .error "internal server error"⟩ := by
  have h := ValidateAndGetWeather_error_body fs w cep resp bodyBytes hv hreq hdo hread hst
  rw [hm] at h
  simp only at h
  refine ⟨h, ?_⟩
  have h1 : ("weather service error: " ++ toString resp.StatusCode).data.head? = some 'w' := by
    rw [String.data_append]
    rfl
  have n1 : "weather service error: " ++ toString resp.StatusCode ≠ "invalid zipcode" := by
    intro hh
    rw [hh] at h1
    exact absurd h1 (by decide)
  have n2 : "weather service error: " ++ toString resp.StatusCode ≠ "can not find zipcode" := by
    intro hh
    rw [hh] at h1
    exact absurd h1 (by decide)
  rw [GetWeatherByCEP_error fs w cep _ h, if_neg n1, if_neg n2]

/-- C7, at the failing input: the back service answers 500 with the body
`{"error":"100%"}`. The body parses, its error message is `100%`, and the error returned
by `ValidateAndGetWeather` is `100%!(NOVERB)`, not `100%`: the message is passed to
`fmt.Errorf` as the format string. -/
theorem front_error_message_reformatted :
    (frontWorld 500 (.ok "100%")).UnmarshalError "body" = .ok "100%" ∧
    CEPService.ValidateAndGetWeather ⟨"http://service-b:8081"⟩
        (frontWorld 500 (.ok "100%")) "01310100"
      = (.error "100%!(NOVERB)", ["http://service-b:8081/weather/01310100"]) ∧
    (CEPService.ValidateAndGetWeather ⟨"http://service-b:8081"⟩
        (frontWorld 500 (.ok "100%")) "01310100").1 ≠ .error "100%" := by
  decide

/-! ## Classification of the geocoding answer -/

theorem getLocationByZipcode_response (s : WeatherService) (w : World) (zipcode : String)
    (resp : HttpResponse) (hreq : w.NewRequest (viaCEPURL zipcode) = .ok ())
    (hdo : w.Do (viaCEPURL zipcode) = .ok resp) :
    s.getLocationByZipcode w zipcode =
      (if resp.StatusCode ≠ 200 then
        if resp.StatusCode = 502 ∨ resp.StatusCode = 503 then
          .error "viacep service temporarily unavailable"
        else .error "zipcode not found"
      else
        match w.DecodeViaCEP resp.Body with
        | .error err => .error err
        | .ok location => if location.Cep = "" then .error "zipcode not found" else .ok location,
      [viaCEPURL zipcode]) := by
  unfold viaCEPURL at hreq hdo ⊢
  simp only [WeatherService.getLocationByZipcode, hreq, hdo]
  split
  · split <;> rfl
  · split
    · rfl
    · split <;> rfl

/-- C8, counterexample: the geocoding provider answers 204, a 2xx status, with a body
that would decode to a complete payload; `getLocationByZipcode` rejects the answer on
its status with `zipcode not found` and never decodes the payload. -/
theorem status_204_rejected_on_status :
    (backWorld 204 (.ok saoPaulo) 200 celsius25).Do (viaCEPURL "01310100") = .ok ⟨204, "geo"⟩ ∧
    (200 ≤ 204 ∧ 204 < 300) ∧
    (backWorld 204 (.ok saoPaulo) 200 celsius25).DecodeViaCEP "geo" = .ok saoPaulo ∧
    saoPaulo.Cep ≠ "" ∧ saoPaulo.Localidade ≠ "" ∧
    (WeatherService.getLocationByZipcode ⟨"key"⟩
      (backWorld 204 (.ok saoPaulo) 200 celsius25) "01310100").1
      = .error "zipcode not found" ∧
    (WeatherService.getLocationByZipcode ⟨"key"⟩
      (backWorld 204 (.ok saoPaulo) 200 celsius25) "01310100").1 ≠ .ok saoPaulo := by
  decide

/-- C8, amended: for every answer of the geocoding provider, status 502 or 503 fails
with `viacep service temporarily unavailable`; every other status different from 200
(the 2xx statuses 201..299 included) fails with `zipcode not found`; only status 200
proceeds to decoding the payload, where a decode failure returns the decoder's own
error and a decoded payload is checked for an empty echo field. -/
theorem getLocationByZipcode_status_classes (s : WeatherService) (w : World)
    (zipcode : String) (resp : HttpResponse)
    (hreq : w.NewRequest (viaCEPURL zipcode) = .ok ())
    (hdo : w.Do (viaCEPURL zipcode) = .ok resp) :
    ((resp.StatusCode = 502 ∨ resp.StatusCode = 503) →
      (s.getLocationByZipcode w zipcode).1 = .error "viacep service temporarily unavailable") ∧
    (resp.StatusCode ≠ 200 → resp.StatusCode ≠ 502 → resp.StatusCode ≠ 503 →
      (s.getLocationByZipcode w zipcode).1 = .error "zipcode not found") ∧
    (resp.StatusCode = 200 →
      (∀ e, w.DecodeViaCEP resp.Body = .error e →
        (s.getLocationByZipcode w zipcode).1 = .error e) ∧
      (∀ loc, w.DecodeViaCEP resp.Body = .ok loc →
        (s.getLocationByZipcode w zipcode).1 =
          if loc.Cep = "" then .error "zipcode not found" else .ok loc)) := by
  rw [getLocationByZipcode_response s w zipcode resp hreq hdo]
  refine ⟨fun h => ?_, fun h1 h2 h3 => ?_, fun h => ⟨fun e he => ?_, fun loc hl => ?_⟩⟩
  · have h200 : resp.StatusCode ≠ 200 := by omega
    simp only [h200, ne_eq, not_false_eq_true, ↓reduceIte, h]
  · have h5 : ¬ (resp.StatusCode = 502 ∨ resp.StatusCode = 503) := by omega
    simp only [h1, ne_eq, not_false_eq_true, ↓reduceIte, h5]
  · simp only [h, ne_eq, not_true_eq_false, ↓reduceIte, he]
  · simp only [h, ne_eq, not_true_eq_false, ↓reduceIte, hl]

/-- Witness of C8 (amended): statuses 503, 204 and 200. -/
theorem getLocationByZipcode_status_classes_witness :
    (WeatherService.getLocationByZipcode ⟨"key"⟩
      (backWorld 503 (.ok saoPaulo) 200 celsius25) "01310100").1
      = .error "viacep service temporarily unavailable" ∧
    (WeatherService.getLocationByZipcode ⟨"key"⟩
      (backWorld 204 (.ok saoPaulo) 200 celsius25) "01310100").1
      = .error "zipcode not found" ∧
    (WeatherService.getLocationByZipcode ⟨"key"⟩
      (backWorld 200 (.error "unexpected EOF") 200 celsius25) "01310100").1
      = .error "unexpected EOF" :=
  ⟨(getLocationByZipcode_status_classes ⟨"key"⟩ (backWorld 503 (.ok saoPaulo) 200 celsius25)
      "01310100" ⟨503, "geo"⟩ (by decide) (by decide)).1 (Or.inr rfl),
   (getLocationByZipcode_status_classes ⟨"key"⟩ (backWorld 204 (.ok saoPaulo) 200 celsius25)
      "01310100" ⟨204, "geo"⟩ (by decide) (by decide)).2.1 (by decide) (by decide) (by decide),
   ((getLocationByZipcode_status_classes ⟨"key"⟩
      (backWorld 200 (.error "unexpected EOF") 200 celsius25)
      "01310100" ⟨200, "geo"⟩ (by decide) (by decide)).2.2 rfl).1 "unexpected EOF" (by decide)⟩

/-! ## Empty fields of the geocoding payload -/

/-- C9, counterexample: the decoded payload has a non-empty echo field and an empty
locality name; `getLocationByZipcode` returns success, with the empty locality name. -/
theorem empty_locality_returned_by_resolver :
    (backWorld 200 (.ok ⟨"01310-100", ""⟩) 200 celsius25).DecodeViaCEP "geo"
      = .ok ⟨"01310-100", ""⟩ ∧
    (WeatherService.getLocationByZipcode ⟨"key"⟩
      (backWorld 200 (.ok ⟨"01310-100", ""⟩) 200 celsius25) "01310100").1
      = .ok ⟨"01310-100", ""⟩ ∧
    (WeatherService.getLocationByZipcode ⟨"key"⟩
      (backWorld 200 (.ok ⟨"01310-100", ""⟩) 200 celsius25) "01310100").1
      ≠ .error "zipcode not found" := by
  decide

/-- C9, amended: for every successfully decoded geocoding payload (status 200),
`getLocationByZipcode` fails with `zipcode not found` exactly when the echo field `cep`
is empty, and otherwise returns the payload as it is, also when `localidade` is empty;
the empty locality name is rejected by the caller `GetWeatherByZipcode`, which returns
`can not find zipcode`; hence whenever `GetWeatherByZipcode` returns success, the
locality name in its result is non-empty. -/
theorem empty_echo_or_locality (s : WeatherService) (w : World) (zipcode : String)
    (resp : HttpResponse) (loc : ViaCEPResponse)
    (hreq : w.NewRequest (viaCEPURL zipcode) = .ok ())
    (hdo : w.Do (viaCEPURL zipcode) = .ok resp) (hst : resp.StatusCode = 200)
    (hdec : w.DecodeViaCEP resp.Body = .ok loc) :
    (loc.Cep = "" → (s.getLocationByZipcode w zipcode).1 = .error "zipcode not found") ∧
    (loc.Cep ≠ "" → (s.getLocationByZipcode w zipcode).1 = .ok loc) ∧
    (isValidZipcode zipcode = true → (loc.Cep = "" ∨ loc.Localidade = "") →
      (s.GetWeatherByZipcode w zipcode).1 = .error "can not find zipcode") ∧
    (∀ r, (s.GetWeatherByZipcode w zipcode).1 = .ok r → r.City ≠ "") := by
  have h1 : loc.Cep = "" → (s.getLocationByZipcode w zipcode).1 = .error "zipcode not found" := by
    intro hc
    rw [getLocationByZipcode_response s w zipcode resp hreq hdo]
    simp only [hst, ne_eq, not_true_eq_false, ↓reduceIte, hdec, hc]
  have h2 : loc.Cep ≠ "" → (s.getLocationByZipcode w zipcode).1 = .ok loc := by
    intro hc
    rw [getLocationByZipcode_response s w zipcode resp hreq hdo]
    simp only [hst, ne_eq, not_true_eq_false, ↓reduceIte, hdec, hc]
  refine ⟨h1, h2, ?_, ?_⟩
  · intro hv hor
    by_cases hc : loc.Cep = ""
    · rw [GetWeatherByZipcode_locality_error s w zipcode _ hv (h1 hc)]
    · rcases hor with hc2 | hl
      · exact absurd hc2 hc
      · rw [GetWeatherByZipcode_empty_locality s w zipcode loc hv (h2 hc) hl]
  · intro r hr
    obtain ⟨_, loc2, tempC, _, hne, _, hr2⟩ := GetWeatherByZipcode_ok s w zipcode r hr
    rw [hr2]
    exact hne

/-- Witness of C9 (amended): an empty echo field, and an empty locality name. -/
theorem empty_echo_or_locality_witness :
    (WeatherService.getLocationByZipcode ⟨"key"⟩
      (backWorld 200 (.ok ⟨"", ""⟩) 200 celsius25) "00000000").1
      = .error "zipcode not found" ∧
    (WeatherService.GetWeatherByZipcode ⟨"key"⟩
      (backWorld 200 (.ok ⟨"01310-100", ""⟩) 200 celsius25) "01310100").1
      = .error "can not find zipcode" :=
  ⟨(empty_echo_or_locality ⟨"key"⟩ (backWorld 200 (.ok ⟨"", ""⟩) 200 celsius25) "00000000"
      ⟨200, "geo"⟩ ⟨"", ""⟩ (by decide) (by decide) rfl (by decide)).1 rfl,
   (empty_echo_or_locality ⟨"key"⟩ (backWorld 200 (.ok ⟨"01310-100", ""⟩) 200 celsius25)
      "01310100" ⟨200, "geo"⟩ ⟨"01310-100", ""⟩ (by decide) (by decide) rfl
      (by decide)).2.2.1 (by decide) (Or.inr rfl)⟩

/-! ## Key of the geocoding request -/

theorem viaCEPURL_injective (a b : String) (h : viaCEPURL a = viaCEPURL b) : a = b := by
  unfold viaCEPURL at h
  have h2 := congrArg String.data h
  simp only [String.data_append, List.append_assoc] at h2
  have h3 := List.append_cancel_left h2
  have h4 := List.append_cancel_right h3
  exact String.ext h4

theorem cleanZipcode_eq_self_iff (zipcode : String) :
    cleanZipcode zipcode = zipcode ↔ ∀ c ∈ zipcode.data, c ≠ '-' ∧ c ≠ ' ' := by
  constructor
  · intro h c hc
    have h2 := cleanZipcode_data zipcode
    rw [h] at h2
    unfold specStrip at h2
    have h3 := (List.filter_eq_self.mp h2.symm) c hc
    simpa using h3
  · intro h
    apply String.ext
    rw [cleanZipcode_data]
    unfold specStrip
    apply List.filter_eq_self.mpr
    intro c hc
    simpa using h c hc

theorem GetWeatherByZipcode_calls (s : WeatherService) (w : World) (zipcode : String)
    (hv : isValidZipcode zipcode = true) :
    ∃ rest, (s.GetWeatherByZipcode w zipcode).2 = (s.getLocationByZipcode w zipcode).2 ++ rest := by
  simp only [WeatherService.GetWeatherByZipcode, hv, Bool.not_true, Bool.false_eq_true,
    ↓reduceIte]
  split
  · next e calls heq => exact ⟨[], by rw [heq]; simp⟩
  · next loc calls heq =>
    split
    · exact ⟨[], by rw [heq]; simp⟩
    · split
      · next e calls2 _ => exact ⟨calls2, by rw [heq]⟩
      · next t calls2 _ => exact ⟨calls2, by rw [heq]⟩

/-- C10, counterexample: the raw code `01310-100` passes validation, its normalized form
is `01310100`, and the URL requested from the geocoding provider is keyed by the raw
code, hyphen included. -/
theorem geocoding_request_keeps_hyphen :
    isValidZipcode "01310-100" = true ∧ cleanZipcode "01310-100" = "01310100" ∧
    (WeatherService.getLocationByZipcode ⟨"key"⟩
      (backWorld 200 (.ok saoPaulo) 200 celsius25) "01310-100").2
      = ["https://viacep.com.br/ws/01310-100/json/"] ∧
    (WeatherService.GetWeatherByZipcode ⟨"key"⟩
      (backWorld 200 (.ok saoPaulo) 200 celsius25) "01310-100").2.head?
      = some "https://viacep.com.br/ws/01310-100/json/" ∧
    "https://viacep.com.br/ws/01310-100/json/" ≠ "https://viacep.com.br/ws/01310100/json/" := by
  decide

theorem isValidZipcode_chars (zipcode : String) (hv : isValidZipcode zipcode = true) :
    ∀ c ∈ zipcode.data, c = '-' ∨ c = ' ' ∨ ('0' ≤ c ∧ c ≤ '9') := by
  intro c hc
  have h := (matchEightDigits_iff (cleanZipcode zipcode)).mp hv
  rw [cleanZipcode_data] at h
  by_cases h1 : c = '-'
  · exact Or.inl h1
  · by_cases h2 : c = ' '
    · exact Or.inr (Or.inl h2)
    · refine Or.inr (Or.inr (h.2 c ?_))
      unfold specStrip
      rw [List.mem_filter]
      exact ⟨hc, by simp [h1, h2]⟩

theorem getLocationByZipcode_calls_mem (s : WeatherService) (w : World) (zipcode url : String)
    (hurl : url ∈ (s.getLocationByZipcode w zipcode).2) :
    url = "https://viacep.com.br/ws/" ++ zipcode ++ "/json/" := by
  simp only [WeatherService.getLocationByZipcode] at hurl
  split at hurl
  · simp at hurl
  · split at hurl
    · simpa using hurl
    · split at hurl
      · split at hurl <;> simpa using hurl
      · split at hurl
        · simpa using hurl
        · split at hurl <;> simpa using hurl

/-- C10, amended: for every raw postal code that passes validation and contains no space,
the URL string that `getLocationByZipcode` builds and requests from the geocoding
provider is keyed by the raw postal code, whose characters are digits and hyphens, with
its hyphens kept: `https://viacep.com.br/ws/<raw>/json/`; this is the URL of the
normalized code exactly when the raw code contains no hyphen. Codes that contain a
space are left out of the statement. -/
theorem geocoding_request_keyed_by_raw_code (s : WeatherService) (w : World) (zipcode : String)
    (hv : isValidZipcode zipcode = true) (hns : ∀ c ∈ zipcode.data, c ≠ ' ') :
    (∀ c ∈ zipcode.data, c = '-' ∨ ('0' ≤ c ∧ c ≤ '9')) ∧
    (∀ url ∈ (s.getLocationByZipcode w zipcode).2,
      url = "https://viacep.com.br/ws/" ++ zipcode ++ "/json/") ∧
    (w.NewRequest (viaCEPURL zipcode) = .ok () →
      (s.getLocationByZipcode w zipcode).2 = ["https://viacep.com.br/ws/" ++ zipcode ++ "/json/"] ∧
      (s.GetWeatherByZipcode w zipcode).2.head?
        = some ("https://viacep.com.br/ws/" ++ zipcode ++ "/json/")) ∧
    (viaCEPURL zipcode = viaCEPURL (cleanZipcode zipcode) ↔ ∀ c ∈ zipcode.data, c ≠ '-') := by
  refine ⟨?_, ?_, ?_, ?_⟩
  · intro c hc
    rcases isValidZipcode_chars zipcode hv c hc with h | h | h
    · exact Or.inl h
    · exact absurd h (hns c hc)
    · exact Or.inr h
  · intro url hurl
    exact getLocationByZipcode_calls_mem s w zipcode url hurl
  · intro hreq
    have hl : (s.getLocationByZipcode w zipcode).2
        = ["https://viacep.com.br/ws/" ++ zipcode ++ "/json/"] := by
      unfold viaCEPURL at hreq
      simp only [WeatherService.getLocationByZipcode, hreq]
      split
      · rfl
      · split
        · split <;> rfl
        · split
          · rfl
          · split <;> rfl
    refine ⟨hl, ?_⟩
    obtain ⟨rest, hrest⟩ := GetWeatherByZipcode_calls s w zipcode hv
    rw [hrest, hl]
    rfl
  · constructor
    · intro h c hc
      have h2 := (cleanZipcode_eq_self_iff zipcode).mp (viaCEPURL_injective _ _ h).symm
      exact (h2 c hc).1
    · intro h
      have h2 : cleanZipcode zipcode = zipcode :=
        (cleanZipcode_eq_self_iff zipcode).mpr (fun c hc => ⟨h c hc, hns c hc⟩)
      rw [h2]

/-- Witness of C10 (amended): the raw code `01310-100`. -/
theorem geocoding_request_keyed_by_raw_code_witness :
    (WeatherService.getLocationByZipcode ⟨"key"⟩
      (backWorld 200 (.ok saoPaulo) 200 celsius25) "01310-100").2
      = ["https://viacep.com.br/ws/" ++ "01310-100" ++ "/json/"] :=
  ((geocoding_request_keyed_by_raw_code ⟨"key"⟩ (backWorld 200 (.ok saoPaulo) 200 celsius25)
    "01310-100" (by decide) (by decide)).2.2.1 (by decide)).1

/-! ## Order of the outbound requests -/

theorem getLocationByZipcode_calls_cases (s : WeatherService) (w : World) (zipcode : String) :
    ((s.getLocationByZipcode w zipcode).2 = [] ∧
      ∃ e, (s.getLocationByZipcode w zipcode).1 = .error e) ∨
    (s.getLocationByZipcode w zipcode).2 = ["https://viacep.com.br/ws/" ++ zipcode ++ "/json/"] := by
  simp only [WeatherService.getLocationByZipcode]
  split
  · next e _ => exact Or.inl ⟨rfl, e, rfl⟩
  · right
    split
    · rfl
    · split
      · split <;> rfl
      · split
        · rfl
        · split <;> rfl

theorem getTemperatureByLocation_calls_cases (s : WeatherService) (w : World)
    (location : String) :
    (s.getTemperatureByLocation w location).2 = [] ∨
    (s.getTemperatureByLocation w location).2 = [s.weatherURL w location] := by
  simp only [WeatherService.getTemperatureByLocation]
  split
  · exact Or.inl rfl
  · right
    split
    · rfl
    · split
      · rfl
      · split <;> rfl

theorem GetWeatherByZipcode_calls_shape (s : WeatherService) (w : World) (zipcode : String) :
    (s.GetWeatherByZipcode w zipcode).2 = [] ∨
    (s.GetWeatherByZipcode w zipcode).2 = ["https://viacep.com.br/ws/" ++ zipcode ++ "/json/"] ∨
    ∃ loc, isValidZipcode zipcode = true ∧
      (s.getLocationByZipcode w zipcode).1 = .ok loc ∧ loc.Localidade ≠ "" ∧
      (s.GetWeatherByZipcode w zipcode).2 =
        ["https://viacep.com.br/ws/" ++ zipcode ++ "/json/", s.weatherURL w loc.Localidade] := by
  by_cases hv : isValidZipcode zipcode = true
  · have hl := getLocationByZipcode_calls_cases s w zipcode
    simp only [WeatherService.GetWeatherByZipcode, hv, Bool.not_true, Bool.false_eq_true,
      ↓reduceIte]
    split
    · next e calls heq =>
      rw [heq] at hl
      rcases hl with ⟨h1, _⟩ | h1
      · exact Or.inl h1
      · exact Or.inr (Or.inl h1)
    · next loc calls heq =>
      rw [heq] at hl
      have hc : calls = ["https://viacep.com.br/ws/" ++ zipcode ++ "/json/"] := by
        rcases hl with ⟨_, e, he⟩ | h1
        · simp at he
        · exact h1
      subst hc
      split
      · exact Or.inr (Or.inl rfl)
      · next hne =>
        have ht := getTemperatureByLocation_calls_cases s w loc.Localidade
        split
        · next e calls2 heq2 =>
          rw [heq2] at ht
          rcases ht with h2 | h2
          · simp only at h2
            subst h2
            exact Or.inr (Or.inl rfl)
          · simp only at h2
            subst h2
            exact Or.inr (Or.inr ⟨loc, trivial, by rw [heq], hne, rfl⟩)
        · next t calls2 heq2 =>
          rw [heq2] at ht
          rcases ht with h2 | h2
          · simp only at h2
            subst h2
            exact Or.inr (Or.inl rfl)
          · simp only at h2
            subst h2
            exact Or.inr (Or.inr ⟨loc, trivial, by rw [heq], hne, rfl⟩)
  · left
    have hv2 : isValidZipcode zipcode = false := by simpa using hv
    simp [WeatherService.GetWeatherByZipcode, hv2]

theorem weatherURL_ne_viaCEPURL (s : WeatherService) (w : World) (location key : String) :
    s.weatherURL w location ≠ "https://viacep.com.br/ws/" ++ key ++ "/json/" := by
  intro h
  have h1 : (s.weatherURL w location).data.take 5 = "http:".data := by
    unfold WeatherService.weatherURL
    simp only [String.data_append, List.append_assoc]
    rfl
  have h2 : ("https://viacep.com.br/ws/" ++ key ++ "/json/").data.take 5 = "https".data := by
    simp only [String.data_append, List.append_assoc]
    rfl
  rw [h, h2] at h1
  exact absurd h1 (by decide)

/-- C11: in every run of `GetWeatherByZipcode` the outbound requests are, in order, a
prefix of the geocoding request followed by the weather request. The weather request is
made only after the geocoding request was answered with status 200 and a payload that
decodes with a non-empty locality name (a weather URL among the requests implies that
success), and its URL then carries, in the field `q`, exactly `url.QueryEscape` of that
locality name. -/
theorem outbound_calls_in_order (s : WeatherService) (w : World) (zipcode : String) :
    ((s.GetWeatherByZipcode w zipcode).2 = [] ∨
     (s.GetWeatherByZipcode w zipcode).2 = [viaCEPURL zipcode] ∨
     ∃ geo loc, isValidZipcode zipcode = true ∧
       w.Do (viaCEPURL zipcode) = .ok geo ∧ geo.StatusCode = 200 ∧
       w.DecodeViaCEP geo.Body = .ok loc ∧
       (s.getLocationByZipcode w zipcode).1 = .ok loc ∧ loc.Localidade ≠ "" ∧
       (s.GetWeatherByZipcode w zipcode).2 =
         [viaCEPURL zipcode,
          "http://api.weatherapi.com/v1/current.json?key=" ++ s.weatherAPIKey ++ "&q="
            ++ w.QueryEscape loc.Localidade ++ "&aqi=no"]) ∧
    (∃ location, (s.GetWeatherByZipcode w zipcode).2 <+:
      [viaCEPURL zipcode, s.weatherURL w location]) ∧
    (∀ location, s.weatherURL w location ∈ (s.GetWeatherByZipcode w zipcode).2 →
      ∃ loc, (s.getLocationByZipcode w zipcode).1 = .ok loc ∧ loc.Localidade ≠ "" ∧
        (s.GetWeatherByZipcode w zipcode).2 =
          [viaCEPURL zipcode, s.weatherURL w loc.Localidade]) := by
  unfold viaCEPURL
  rcases GetWeatherByZipcode_calls_shape s w zipcode with h | h | ⟨loc, hv, hloc, hne, h⟩
  · refine ⟨Or.inl h, ⟨"", ?_⟩, ?_⟩
    · rw [h]
      exact List.nil_prefix
    · intro location hmem
      rw [h] at hmem
      simp at hmem
  · refine ⟨Or.inr (Or.inl h), ⟨"", ?_⟩, ?_⟩
    · rw [h]
      exact ⟨[s.weatherURL w ""], rfl⟩
    · intro location hmem
      rw [h] at hmem
      simp only [List.mem_singleton] at hmem
      exact absurd hmem (weatherURL_ne_viaCEPURL s w location zipcode)
  · obtain ⟨geo, hgeo, hst, hdec, _⟩ := getLocationByZipcode_ok s w zipcode loc hloc
    refine ⟨Or.inr (Or.inr ⟨geo, loc, hv, hgeo, hst, hdec, hloc, hne, h⟩),
      ⟨loc.Localidade, ?_⟩, ?_⟩
    · rw [h]
    · intro location _
      exact ⟨loc, hloc, hne, h⟩

/-- Witness of C11: in the end-to-end scenario the weather request is among the requests,
so the geocoding request came first and returned the locality name. -/
theorem outbound_calls_in_order_witness :
    WeatherService.weatherURL ⟨"key"⟩ (backWorld 200 (.ok saoPaulo) 200 celsius25) "São Paulo"
      ∈ (WeatherService.GetWeatherByZipcode ⟨"key"⟩
          (backWorld 200 (.ok saoPaulo) 200 celsius25) "01310100").2 ∧
    ∃ loc, (WeatherService.getLocationByZipcode ⟨"key"⟩
        (backWorld 200 (.ok saoPaulo) 200 celsius25) "01310100").1 = .ok loc ∧
      loc.Localidade ≠ "" ∧
      (WeatherService.GetWeatherByZipcode ⟨"key"⟩
        (backWorld 200 (.ok saoPaulo) 200 celsius25) "01310100").2 =
        [viaCEPURL "01310100",
         WeatherService.weatherURL ⟨"key"⟩ (backWorld 200 (.ok saoPaulo) 200 celsius25)
           loc.Localidade] :=
  ⟨by decide,
   (outbound_calls_in_order ⟨"key"⟩ (backWorld 200 (.ok saoPaulo) 200 celsius25)
     "01310100").2.2 "São Paulo" (by decide)⟩

/-- The end-to-end scenario of the specification: the geocoding request, then the weather
request for the encoded locality name. -/
theorem outbound_calls_example :
    (WeatherService.GetWeatherByZipcode ⟨"key"⟩
      (backWorld 200 (.ok saoPaulo) 200 celsius25) "01310100").2
      = ["https://viacep.com.br/ws/01310100/json/",
         "http://api.weatherapi.com/v1/current.json?key=key&q=S%C3%A3o+Paulo&aqi=no"] ∧
    (WeatherService.GetWeatherByZipcode ⟨"key"⟩
      (backWorld 200 (.ok ⟨"01310-100", ""⟩) 200 celsius25) "01310100").2
      = ["https://viacep.com.br/ws/01310100/json/"] ∧
    (WeatherService.GetWeatherByZipcode ⟨"key"⟩
      (backWorld 503 (.ok saoPaulo) 200 celsius25) "01310100").2
      = ["https://viacep.com.br/ws/01310100/json/"] := by
  decide

end OtelWeather
